import Mathlib

/-!
Verification of the CryptoTwin IFC-to-blockchain pipeline.

Shallow embedding of the core of the repository:
  - `src/services/blockchain_service.py` (export, conversion, validation),
  - `src/services/ifc_processor.py` (fallback-strategy extraction),
  - `src/models/topologic_models.py` (vertices, graphs, statistics),
  - `src/models/blockchain_models.py` (token URI scheme).

Strings are modelled as Lean `String`/`List Char`; Python floats are
modelled as exact rationals (`ℚ`), with counterexample inputs chosen to be
dyadic rationals whose products by 1000 are exactly representable IEEE-754
doubles, so the rational model and the IEEE semantics agree at every input
a theorem below evaluates; Python `int(...)` on a float is truncation
toward zero and Python `round` is round-half-to-even; Python `None` and
exceptions are modelled with `Option`/`Except`.
-/

namespace CryptoTwin

/-! ## Python-style primitives -/

/-- Python `int(q)` on a float: truncation toward zero
(integer T-division of numerator by denominator). -/
def pyTrunc (q : ℚ) : ℤ :=
  q.num.tdiv (q.den : ℤ)

/-- Python `round(q)` on a float: round half to even (banker's rounding),
computed from the floor `q.num.fdiv q.den` and the remainder. -/
def pyRound (q : ℚ) : ℤ :=
  let f := q.num.fdiv (q.den : ℤ)
  let r := q.num - f * (q.den : ℤ)
  if 2 * r < (q.den : ℤ) then f
  else if 2 * r > (q.den : ℤ) then f + 1
  else if Even f then f else f + 1

/-- ASCII lower-casing of one character, as Python `str.lower` acts on the
ASCII identifiers this pipeline handles. -/
def pyLowerChar (c : Char) : Char :=
  if 'A' ≤ c ∧ c ≤ 'Z' then Char.ofNat (c.toNat + 32) else c

/-- Python `s.lower()` on a list of characters. -/
def pyLower (s : List Char) : List Char :=
  s.map pyLowerChar

/-- Boolean test that `pat` is an initial segment of `s`. -/
def isPrefixB : List Char → List Char → Bool
  | [], _ => true
  | _ :: _, [] => false
  | p :: ps, c :: cs => p == c && isPrefixB ps cs

/-- Python `pat in s` substring containment. -/
def containsSub (pat : List Char) : List Char → Bool
  | [] => isPrefixB pat []
  | c :: cs => isPrefixB pat (c :: cs) || containsSub pat cs

/-! ## Token types (`blockchain_service.py`, class `TokenType`) -/

inductive TokenType where
  | PROJECT
  | BUILDING
  | STOREY
  | SPACE
  | COMPONENT
deriving DecidableEq, Repr

/-- The integer `.value` of the `TokenType` enum. -/
def TokenType.value : TokenType → ℕ
  | .PROJECT => 0
  | .BUILDING => 1
  | .STOREY => 2
  | .SPACE => 3
  | .COMPONENT => 4

/-- `BlockchainExportService._determine_token_type`: lower-cases its
argument and classifies by substring containment in a fixed order. -/
def determine_token_type (ifc_type : List Char) : TokenType :=
  let l := pyLower ifc_type
  if containsSub "project".data l then .PROJECT
  else if containsSub "building".data l && !containsSub "storey".data l then .BUILDING
  else if containsSub "storey".data l || containsSub "floor".data l then .STOREY
  else if containsSub "space".data l || containsSub "room".data l
          || containsSub "zone".data l then .SPACE
  else .COMPONENT

/-- Classification exactly as the spec words it, as a function of the
already lower-cased IFC type string: contains "project" → PROJECT;
contains "building" and not "storey" → BUILDING; contains "storey" or
"floor" → STOREY; contains "space" or "room" or "zone" → SPACE;
otherwise COMPONENT. -/
def specTokenClassification (l : List Char) : TokenType :=
  if containsSub "project".data l then .PROJECT
  else if containsSub "building".data l && !containsSub "storey".data l then .BUILDING
  else if containsSub "storey".data l || containsSub "floor".data l then .STOREY
  else if containsSub "space".data l || containsSub "room".data l
          || containsSub "zone".data l then .SPACE
  else .COMPONENT

example : determine_token_type "IfcBuildingStorey".data = TokenType.STOREY := by decide
example : determine_token_type "IfcBuilding".data = TokenType.BUILDING := by decide
example : determine_token_type "IfcWall".data = TokenType.COMPONENT := by decide
example : determine_token_type "IfcZone".data = TokenType.SPACE := by decide
example : determine_token_type "ifcproject".data = TokenType.PROJECT := by decide
example : determine_token_type "IfcFloor".data = TokenType.STOREY := by decide

/-! ## Chain-export node conversion (`blockchain_service.py`) -/

/-- One row returned by `kuzu_service.get_vertices_by_file`: an
`IfcElement` record with its scalar columns present (coordinates are
floats, modelled as exact rationals). -/
structure KuzuVertex where
  id : String
  ifc_type : String
  ifc_guid : String
  name : String
  x : ℚ
  y : ℚ
  z : ℚ
  building_id : String
deriving DecidableEq, Repr

/-- Hex digit characters. -/
def hexDigit (n : ℕ) : Char :=
  "0123456789abcdef".data.getD n '0'

/-- Two-digit lowercase hex of one byte. -/
def byteHex (b : UInt8) : List Char :=
  [hexDigit (b.toNat / 16), hexDigit (b.toNat % 16)]

/-- `BlockchainExportService._string_to_bytes32`: empty string maps to the
all-zero word; otherwise UTF-8 bytes truncated to 32 and right-padded with
zero bytes, rendered as `0x` plus 64 hex digits. -/
def string_to_bytes32 (text : String) : String :=
  if text = "" then
    String.mk ('0' :: 'x' :: (List.replicate 32 (0 : UInt8)).flatMap byteHex)
  else
    let bytes := text.toUTF8.toList.take 32
    let padded := bytes ++ List.replicate (32 - bytes.length) (0 : UInt8)
    String.mk ('0' :: 'x' :: padded.flatMap byteHex)

/-- The `GraphNodeMetadata` dict built by
`BlockchainExportService._convert_vertex_to_graph_node`.  The Python field
`exists` is spelled `exists_flag` (Lean keyword). -/
structure GraphNode where
  tokenType : ℕ
  kuzuElementId : String
  topologicVertexId : String
  ifcGuid : String
  ifcType : String
  name : String
  x : ℤ
  y : ℤ
  z : ℤ
  fileId : String
  buildingId : String
  parentTokenId : ℕ
  childTokenIds : List ℕ
  status : ℕ
  mintedAt : ℕ
  exists_flag : Bool
deriving DecidableEq, Repr

/-- `BlockchainExportService._convert_vertex_to_graph_node`: coordinates
are scaled by 1000 and passed through Python `int(...)` (truncation toward
zero); identifiers are copied; `file_id`/`building_id` are bytes32-encoded;
chain-filled fields are zero/empty/false. -/
def convert_vertex_to_graph_node (vertex : KuzuVertex) (file_id : String) : GraphNode :=
  { tokenType := (determine_token_type (pyLower vertex.ifc_type.data)).value
    kuzuElementId := vertex.id
    topologicVertexId := vertex.id
    ifcGuid := vertex.ifc_guid
    ifcType := vertex.ifc_type
    name := vertex.name
    x := pyTrunc (vertex.x * 1000)
    y := pyTrunc (vertex.y * 1000)
    z := pyTrunc (vertex.z * 1000)
    fileId := string_to_bytes32 file_id
    buildingId := string_to_bytes32 vertex.building_id
    parentTokenId := 0
    childTokenIds := []
    status := 0
    mintedAt := 0
    exists_flag := false }

/-! ## Export edges and the full export (`blockchain_service.py`) -/

/-- One row of the `TopologicalConnection` query:
`a.id, b.id, r.connection_type, r.edge_type, r.properties`.
Nullable columns are `Option`; `properties` is the rendered `str(...)`
of the properties value when that value is truthy. -/
structure EdgeRow where
  from_id : String
  to_id : String
  connection_type : Option String
  edge_type : Option String
  properties : Option String
deriving DecidableEq, Repr

/-- The `GraphEdge` dict built by
`BlockchainExportService._get_edges_for_file`.  Python dict keys that a
given producer may leave absent are `Option` (`none` = key not in dict). -/
structure ExportEdge where
  fromTokenId : ℕ
  toTokenId : ℕ
  fromIndex : Option ℕ
  toIndex : Option ℕ
  fromKuzuId : Option String
  toKuzuId : Option String
  connectionType : String
  edgeProperties : String
  kuzuEdgeId : String
  bidirectional : Bool
deriving DecidableEq, Repr

/-- Python truthiness of an optional string: `None` and `""` are falsy. -/
def pyTruthy : Option String → Bool
  | none => false
  | some s => s ≠ ""

/-- Python `value or default` on an optional string. -/
def pyOrDefault (v : Option String) (d : String) : String :=
  match v with
  | none => d
  | some s => if s = "" then d else s

/-- Lookup in a Python dict built by successive assignment:
later bindings shadow earlier ones. -/
def pyDictGet (m : List (String × ℕ)) (k : String) : Option ℕ :=
  match m with
  | [] => none
  | (k', v) :: rest =>
      match pyDictGet rest k with
      | some r => some r
      | none => if k' = k then some v else none

/-- The loop body of `_get_edges_for_file`: keep only rows whose two
endpoint ids are in the export's id→index map, numbering kept edges with
`edge_counter`.  The built dict has `fromIndex`/`toIndex` and no
`fromKuzuId`/`toKuzuId` keys. -/
def edges_from_rows (idxmap : List (String × ℕ)) :
    List EdgeRow → ℕ → List ExportEdge
  | [], _ => []
  | row :: rest, counter =>
      match pyDictGet idxmap row.from_id, pyDictGet idxmap row.to_id with
      | some fi, some ti =>
          { fromTokenId := 0
            toTokenId := 0
            fromIndex := some fi
            toIndex := some ti
            fromKuzuId := none
            toKuzuId := none
            connectionType := pyOrDefault row.connection_type "topological"
            edgeProperties := pyOrDefault row.properties "\x7b\x7d"
            kuzuEdgeId := string_to_bytes32 ("edge_" ++ toString counter)
            bidirectional := true } :: edges_from_rows idxmap rest (counter + 1)
      | _, _ => edges_from_rows idxmap rest counter

/-- `BlockchainExportService._get_edges_for_file`.  The store query is an
explicit argument; its failure is caught inside the method, which then
returns the edges accumulated so far (none). -/
def get_edges_for_file (rows : Except String (List EdgeRow))
    (idxmap : List (String × ℕ)) : List ExportEdge :=
  match rows with
  | .error _ => []
  | .ok rs => edges_from_rows idxmap rs 0

/-- The type-filter step of `export_building_for_minting`: when a filter
is given, keep the elements whose lower-cased `ifc_type` occurs among the
lower-cased filter entries. -/
def filtered_vertices (include_types : List String) (vertices : List KuzuVertex) :
    List KuzuVertex :=
  if include_types ≠ [] then
    vertices.filter (fun v =>
      (include_types.map (fun t => pyLower t.data)).contains (pyLower v.ifc_type.data))
  else vertices

/-- `BlockchainExportService.export_building_for_minting`.  The two store
queries (`get_vertices_by_file` and the edge query) are explicit
arguments; `include_types = []` models Python `None`/empty (no filter).
The method's own `try/except` catches every exception — including a store
failure — and returns `([], [])`. -/
def export_building_for_minting
    (verts : Except String (List KuzuVertex))
    (rows : Except String (List EdgeRow))
    (file_id : String) (include_types : List String) :
    List GraphNode × List ExportEdge :=
  match verts with
  | .error _ => ([], [])
  | .ok vertices =>
      if vertices = [] then ([], [])
      else
        let vertices := filtered_vertices include_types vertices
        let nodes := vertices.map (fun v => convert_vertex_to_graph_node v file_id)
        let idxmap := vertices.enum.map (fun p => (p.2.id, p.1))
        (nodes, get_edges_for_file rows idxmap)

/-! ## Export validation (`blockchain_service.py`, `validate_export_data`).

Nodes reaching validation are modelled in the exporter's output schema:
every key present, coordinates of integer type, so the
missing-coordinate and non-integer-coordinate branches of the Python loop
are never taken and are omitted; the quote marks Python puts around field
names in messages are dropped. -/

/-- Required-field errors for one node (`kuzuElementId`, `ifcGuid`,
`ifcType`, `name` must be truthy). -/
def node_errors (idx : ℕ) (n : GraphNode) : List String :=
  (if n.kuzuElementId = "" then
    ["Node " ++ toString idx ++ ": Missing required field kuzuElementId"] else [])
  ++ (if n.ifcGuid = "" then
    ["Node " ++ toString idx ++ ": Missing required field ifcGuid"] else [])
  ++ (if n.ifcType = "" then
    ["Node " ++ toString idx ++ ": Missing required field ifcType"] else [])
  ++ (if n.name = "" then
    ["Node " ++ toString idx ++ ": Missing required field name"] else [])

/-- Per-edge errors: endpoint checks fire only when the edge carries a
truthy `fromKuzuId`/`toKuzuId` key that is not a collected node id;
`connectionType` must be truthy. -/
def edge_errors (kuzu_ids : List String) (idx : ℕ) (e : ExportEdge) : List String :=
  (match e.fromKuzuId with
   | some s =>
       if s ≠ "" ∧ ¬ kuzu_ids.contains s then
         ["Edge " ++ toString idx ++ ": fromKuzuId " ++ s ++ " not found in nodes"]
       else []
   | none => [])
  ++ (match e.toKuzuId with
   | some s =>
       if s ≠ "" ∧ ¬ kuzu_ids.contains s then
         ["Edge " ++ toString idx ++ ": toKuzuId " ++ s ++ " not found in nodes"]
       else []
   | none => [])
  ++ (if e.connectionType = "" then
        ["Edge " ++ toString idx ++ ": Missing connectionType"] else [])

/-- `BlockchainExportService.validate_export_data`: empty node list
returns immediately; otherwise all checks accumulate and validity is
emptiness of the error list. -/
def validate_export_data (nodes : List GraphNode) (edges : List ExportEdge) :
    Bool × List String :=
  if nodes = [] then (false, ["No nodes provided"])
  else
    let nodeErrs := (nodes.enum.map (fun p => node_errors p.1 p.2)).flatten
    let kuzu_ids := (nodes.filter (fun n => n.kuzuElementId ≠ "")).map
      (fun n => n.kuzuElementId)
    let edgeErrs := (edges.enum.map (fun p => edge_errors kuzu_ids p.1 p.2)).flatten
    let errors := nodeErrs ++ edgeErrs
    (errors = [], errors)

/-! ## Topologic models (`topologic_models.py`) -/

/-- A scalar Python value in a topologic dictionary: `None` or a string
(the alias-extraction code treats values opaquely, so strings stand for
all non-null scalars). -/
inductive PyVal where
  | pnone
  | pstr (s : String)
deriving DecidableEq, Repr

/-- Python truthiness of a `PyVal`: `None` and `""` are falsy. -/
def PyVal.truthy : PyVal → Bool
  | .pnone => false
  | .pstr s => s ≠ ""

/-- The string carried by a `PyVal` (`""` for `None`; only used on truthy
values). -/
def PyVal.strVal : PyVal → String
  | .pnone => ""
  | .pstr s => s

/-- Lookup in a Python dict of scalars built by successive assignment
(later bindings shadow earlier ones). -/
def pyGet (m : List (String × PyVal)) (k : String) : Option PyVal :=
  match m with
  | [] => none
  | (k', v) :: rest =>
      match pyGet rest k with
      | some r => some r
      | none => if k' = k then some v else none

/-- `TopologicVertex` (pydantic model): uuid defaults are not modelled,
`id` is a plain field. -/
structure TopologicVertex where
  id : String := ""
  coordinates : ℚ × ℚ × ℚ := (mkRat 0 1, mkRat 0 1, mkRat 0 1)
  dictionaries : List (String × PyVal) := []
  ifc_type : PyVal := .pnone
  ifc_guid : PyVal := .pnone
  ifc_name : PyVal := .pnone
deriving DecidableEq, Repr

/-- `TopologicEdge` (pydantic model). -/
structure TopologicEdge where
  id : String := ""
  start_vertex_id : String
  end_vertex_id : String
  dictionaries : List (String × PyVal) := []
  edge_type : PyVal := .pnone
  connection_type : PyVal := .pnone
  shared_geometry : PyVal := .pnone
deriving DecidableEq, Repr

/-- The fixed alias lists of `TopologicVertex.extract_ifc_metadata`. -/
def type_keys : List String := ["IFC_type", "ifc_type", "IFCType", "type", "Entity"]

/-- GUID alias keys. -/
def guid_keys : List String :=
  ["IFC_global_id", "ifc_guid", "IFCGuid", "IFC_GUID", "GlobalId", "guid"]

/-- Name alias keys. -/
def name_keys : List String := ["Name", "name", "IFC_name"]

/-- The `for key in keys: if key in dict: take dict[key]; break` loop:
value of the first alias key present, `none` when no alias is present. -/
def first_key_value (keys : List String) (d : List (String × PyVal)) : Option PyVal :=
  match keys with
  | [] => none
  | k :: ks =>
      match pyGet d k with
      | some v => some v
      | none => first_key_value ks d

/-- `TopologicVertex.extract_ifc_metadata`: each derived field is set to
the first present alias key's value and left unchanged when no alias key
is present. -/
def extract_ifc_metadata (v : TopologicVertex) : TopologicVertex :=
  { v with
    ifc_type := (first_key_value type_keys v.dictionaries).getD v.ifc_type
    ifc_guid := (first_key_value guid_keys v.dictionaries).getD v.ifc_guid
    ifc_name := (first_key_value name_keys v.dictionaries).getD v.ifc_name }

/-- `TopologicGraph` (pydantic model), statistics fields included. -/
structure TopologicGraph where
  vertices : List TopologicVertex := []
  edges : List TopologicEdge := []
  file_id : Option String := none
  building_id : Option String := none
  source_file : Option String := none
  processing_method : Option String := none
  creation_timestamp : Option String := none
  vertex_count : ℕ := 0
  edge_count : ℕ := 0
  ifc_type_counts : List (String × ℕ) := []
deriving DecidableEq, Repr

/-- `type_counts.get(t, 0) + 1` on an insertion-ordered counts dict. -/
def count_incr (m : List (String × ℕ)) (k : String) : List (String × ℕ) :=
  match m with
  | [] => [(k, 1)]
  | (k', v) :: rest => if k' = k then (k', v + 1) :: rest else (k', v) :: count_incr rest k

/-- `TopologicGraph.update_statistics`: recompute `vertex_count`,
`edge_count` and `ifc_type_counts`; a vertex is counted only when its
`ifc_type` is truthy (`if vertex.ifc_type:`). -/
def update_statistics (g : TopologicGraph) : TopologicGraph :=
  { g with
    vertex_count := g.vertices.length
    edge_count := g.edges.length
    ifc_type_counts := g.vertices.foldl
      (fun m v =>
        if v.ifc_type.truthy then count_incr m v.ifc_type.strVal else m) [] }

/-! ## IFC processor with fallback strategies (`ifc_processor.py`)

The TopologicPy library is an external collaborator: it is modelled as an
oracle `TopoEngine` whose `byIFCPath` may raise (`.error`), return a falsy
result (`.ok none`) or return an opaque graph handle, and whose
vertex/edge extraction for a handle may raise or produce the extracted
lists.  Wall-clock timing and logging are not modelled. -/

/-- Opaque TopologicPy graph handle. -/
structure GraphHandle where
  tag : ℕ
deriving DecidableEq, Repr

/-- Oracle for the TopologicPy collaborator: `byIFCPath includeTypes
transferDictionaries` and the vertex/edge enumeration used by
`_extract_graph_data`. -/
structure TopoEngine where
  byIFCPath : Option (List String) → Bool → Except String (Option GraphHandle)
  extractData : GraphHandle → Except String (List TopologicVertex × List TopologicEdge)

/-- `IFCProcessingContext` (the fields the core reads or writes). -/
structure IFCContext where
  file_path : String
  include_types : List String := []
  transfer_dictionaries : Bool := true
  error_messages : List String := []
  attempted_methods : List String := []
  current_method : Option String := none
  original_topologic_graph : Option GraphHandle := none

/-- `IFCProcessorService.default_ifc_types`. -/
def default_ifc_types : List String :=
  ["IfcWall", "IfcSlab", "IfcBeam", "IfcColumn", "IfcDoor", "IfcWindow",
   "IfcSpace", "IfcRoom", "IfcBuildingStorey", "IfcBuilding"]

/-- `IFCProcessorService._extract_graph_data`: stores the engine-native
handle on the context, extracts vertices and edges, builds a
`TopologicGraph` stamped with the current strategy name and refreshes its
statistics.  Extraction failures propagate as exceptions. -/
def extract_graph_data (E : TopoEngine) (h : GraphHandle) (ctx : IFCContext) :
    IFCContext × Except String TopologicGraph :=
  let ctx := { ctx with original_topologic_graph := some h }
  match E.extractData h with
  | .error e => (ctx, .error e)
  | .ok (vs, es) =>
      (ctx, .ok (update_statistics
        { vertices := vs
          edges := es
          source_file := some ctx.file_path
          processing_method := ctx.current_method }))

/-- `IFCProcessorService._process_direct_with_dictionaries`: caller's
filter (empty list = Python `None`), dictionary transfer on, with an
internal unfiltered retry when the engine returns a falsy result. -/
def process_direct_with_dictionaries (E : TopoEngine) (ctx : IFCContext) :
    IFCContext × Except String TopologicGraph :=
  let include_types := if ctx.include_types = [] then none else some ctx.include_types
  match E.byIFCPath include_types true with
  | .error e => (ctx, .error ("Graph.ByIFCPath failed with exception: " ++ e))
  | .ok (some h) => extract_graph_data E h ctx
  | .ok none =>
      match E.byIFCPath none true with
      | .error e => (ctx, .error ("Graph.ByIFCPath fallback failed: " ++ e))
      | .ok none => (ctx, .error
          ("Graph.ByIFCPath returned None even without type filtering. " ++
           "File may be corrupted or unsupported: " ++ ctx.file_path))
      | .ok (some h) => extract_graph_data E h ctx

/-- `IFCProcessorService._process_direct_without_dictionaries`: caller's
filter, no dictionary transfer; engine exceptions propagate raw. -/
def process_direct_without_dictionaries (E : TopoEngine) (ctx : IFCContext) :
    IFCContext × Except String TopologicGraph :=
  match E.byIFCPath (if ctx.include_types = [] then none else some ctx.include_types) false with
  | .error e => (ctx, .error e)
  | .ok none => (ctx, .error "Graph.ByIFCPath without dictionaries returned None")
  | .ok (some h) => extract_graph_data E h ctx

/-- The body of `_process_traditional_with_types` for a given resolved
type list: request with those types and dictionary transfer enabled. -/
def traditional_types_request (E : TopoEngine) (ctx : IFCContext)
    (types : List String) : IFCContext × Except String TopologicGraph :=
  match E.byIFCPath (some types) true with
  | .error e => (ctx, .error e)
  | .ok none => (ctx, .error "Traditional processing with types failed")
  | .ok (some h) => extract_graph_data E h ctx

/-- `IFCProcessorService._process_traditional_with_types`:
`include_types = context.include_types or self.default_ifc_types`. -/
def process_traditional_with_types (E : TopoEngine) (ctx : IFCContext) :
    IFCContext × Except String TopologicGraph :=
  traditional_types_request E ctx
    (if ctx.include_types = [] then default_ifc_types else ctx.include_types)

/-- Modelled from the spec's words for comparison (claim C4): the third
strategy discards the caller's filter and always substitutes the
hard-coded default type set, with dictionary transfer enabled. -/
def spec_traditional_with_defaults (E : TopoEngine) (ctx : IFCContext) :
    IFCContext × Except String TopologicGraph :=
  traditional_types_request E ctx default_ifc_types

/-- `IFCProcessorService._process_traditional_fallback`: no filter,
no dictionary transfer. -/
def process_traditional_fallback (E : TopoEngine) (ctx : IFCContext) :
    IFCContext × Except String TopologicGraph :=
  match E.byIFCPath none false with
  | .error e => (ctx, .error e)
  | .ok none => (ctx, .error "All fallback methods failed")
  | .ok (some h) => extract_graph_data E h ctx

/-- The ordered strategy table of `_process_with_fallbacks`. -/
def strategy_table :
    List (String × (TopoEngine → IFCContext → IFCContext × Except String TopologicGraph)) :=
  [("direct_with_dictionaries", process_direct_with_dictionaries),
   ("direct_without_dictionaries", process_direct_without_dictionaries),
   ("traditional_with_types", process_traditional_with_types),
   ("traditional_fallback", process_traditional_fallback)]

/-- The strategy loop: skip already-attempted names, record the attempt
and the current method, treat an exception as a recoverable per-strategy
error (`"{name}: {message}"` appended to the context), treat a returned
graph with zero vertices as failure without an error entry, and stop at
the first non-empty graph. -/
def run_fallbacks (E : TopoEngine) :
    List (String × (TopoEngine → IFCContext → IFCContext × Except String TopologicGraph)) →
    IFCContext → IFCContext × Option TopologicGraph
  | [], ctx => (ctx, none)
  | (name, f) :: rest, ctx =>
      if ctx.attempted_methods.contains name then run_fallbacks E rest ctx
      else
        let ctx := { ctx with
          attempted_methods := ctx.attempted_methods ++ [name]
          current_method := some name }
        match f E ctx with
        | (ctx', .ok g) =>
            if g.vertices.length > 0 then (ctx', some g)
            else run_fallbacks E rest ctx'
        | (ctx', .error e) =>
            run_fallbacks E rest
              { ctx' with error_messages := ctx'.error_messages ++ [name ++ ": " ++ e] }

/-- `IFCProcessorService._process_with_fallbacks`. -/
def process_with_fallbacks (E : TopoEngine) (ctx : IFCContext) :
    IFCContext × Option TopologicGraph :=
  run_fallbacks E strategy_table ctx

/-- `ProcessingConfig` (`data_models.py`); `include_types = None` is
modelled by `Option`. -/
structure ProcessingConfig where
  method : String := "direct"
  include_types : Option (List String) := none
  transfer_dictionaries : Bool := true
  tolerance : ℚ := mkRat 1 1000
deriving DecidableEq, Repr

/-- `GraphStats` (`data_models.py`). -/
structure GraphStats where
  vertex_count : ℕ := 0
  edge_count : ℕ := 0
  ifc_types : List (String × ℕ) := []
  file_size_mb : ℚ := mkRat 0 1
deriving DecidableEq, Repr

/-- `ProcessingResult` (`data_models.py`); wall-clock `processing_time`
is not modelled. -/
structure ProcessingResult where
  success : Bool
  message : String
  stats : Option GraphStats := none
  error_details : Option String := none
deriving DecidableEq, Repr

/-- `IFCProcessorService._calculate_stats`. -/
def calculate_stats (g : TopologicGraph) (file_size_mb : ℚ) : GraphStats :=
  { vertex_count := g.vertex_count
    edge_count := g.edge_count
    ifc_types := g.ifc_type_counts
    file_size_mb := file_size_mb }

/-- The `IFCProcessingContext` that `process_ifc_file` builds from its
arguments (`include_types = config.include_types or []`). -/
def mk_context (file_path : String) (config : ProcessingConfig) : IFCContext :=
  { file_path := file_path
    include_types := config.include_types.getD []
    transfer_dictionaries := config.transfer_dictionaries }

/-- `IFCProcessorService.process_ifc_file`.  `file_valid` is the result
of `_validate_ifc_file` (existence and `.ifc` suffix — a filesystem
check) and `file_size_mb` the size read for statistics.  The enclosing
`try/except` makes the Python method total: an invalid file or an
exhausted fallback chain produces a fresh empty `TopologicGraph()`, a
failure result, and a `None` handle. -/
def process_ifc_file (E : TopoEngine) (file_valid : Bool) (file_size_mb : ℚ)
    (file_path : String) (config : ProcessingConfig) :
    TopologicGraph × ProcessingResult × Option GraphHandle :=
  let ctx : IFCContext := mk_context file_path config
  if ¬ file_valid then
    ({}, { success := false
           message := "Failed to process IFC file: Invalid IFC file: " ++ file_path
           error_details := some ("Invalid IFC file: " ++ file_path) }, none)
  else
    match process_with_fallbacks E ctx with
    | (ctx', some g) =>
        (g, { success := true
              message := "Successfully processed IFC file using " ++
                (ctx'.current_method.getD "")
              stats := some (calculate_stats g file_size_mb) },
         ctx'.original_topologic_graph)
    | (_, none) =>
        ({}, { success := false
               message := "Failed to process IFC file: All processing methods failed"
               error_details := some "All processing methods failed" }, none)

/-! ## Token URI scheme (`blockchain_models.py`, `IFCComponentToken`)

Strings are handled as `List Char` here; only the three identifier fields
the URI encodes are modelled. -/

/-- The identifier fields of `IFCComponentToken` that
`generate_token_uri` encodes. -/
structure IFCComponentToken where
  topologic_vertex_id : List Char
  kuzu_element_id : List Char
  ifc_guid : List Char
deriving DecidableEq, Repr

/-- `IFCComponentToken.generate_token_uri` with no `base_url`:
`kuzu://{kuzu_element_id}/topologic/{topologic_vertex_id}/ifc/{ifc_guid}`. -/
def generate_token_uri (t : IFCComponentToken) : List Char :=
  "kuzu://".data ++ t.kuzu_element_id ++ "/topologic/".data ++
    t.topologic_vertex_id ++ "/ifc/".data ++ t.ifc_guid

/-- Strip a literal from the front of a character list. -/
def stripLiteral (lit s : List Char) : Option (List Char) :=
  if isPrefixB lit s then some (s.drop lit.length) else none

/-- `IFCComponentToken.parse_token_uri` restricted to the `kuzu://`
scheme, as the anchored Python regex
`kuzu://([^/]+)/topologic/([^/]+)/ifc/(.+)` matches: each `[^/]+` group
is the maximal non-slash run (backtracking cannot change it), the final
`(.+)` group is the maximal non-newline run, and every group must be
non-empty.  A failed match (the method's `ValueError`) and the non-kuzu
branches are `none`. -/
def parse_token_uri (uri : List Char) : Option (List Char × List Char × List Char) :=
  match stripLiteral "kuzu://".data uri with
  | none => none
  | some rest =>
      let k := rest.takeWhile (fun c => c ≠ '/')
      if k = [] then none
      else
        match stripLiteral "/topologic/".data (rest.drop k.length) with
        | none => none
        | some rest2 =>
            let t := rest2.takeWhile (fun c => c ≠ '/')
            if t = [] then none
            else
              match stripLiteral "/ifc/".data (rest2.drop t.length) with
              | none => none
              | some rest3 =>
                  let g := rest3.takeWhile (fun c => c ≠ '\n')
                  if g = [] then none else some (k, t, g)

example :
    parse_token_uri "kuzu://elem123/topologic/vertex456/ifc/guid789".data =
      some ("elem123".data, "vertex456".data, "guid789".data) := by decide

example :
    parse_token_uri (generate_token_uri
      { kuzu_element_id := "a/b".data, topologic_vertex_id := "t".data,
        ifc_guid := "g".data }) = none := by decide

example : ((21 : ℚ)/2 * 1000) = mkRat 10500 1 := by rw [Rat.mkRat_eq_div]; norm_num
example : pyTrunc (mkRat 10500 1) = 10500 := by decide
example : ((3 : ℚ)/1024 * 1000) = mkRat 375 128 := by rw [Rat.mkRat_eq_div]; norm_num
example : pyTrunc (mkRat 375 128) = 2 := by decide
example : pyRound (mkRat 375 128) = 3 := by decide

/-! ## Supporting lemmas -/

/-- Python `int(...)` on an exact rational is the floor for non-negative
values and the ceiling for negative values: truncation toward zero. -/
lemma pyTrunc_spec (q : ℚ) : pyTrunc q = if 0 ≤ q then ⌊q⌋ else ⌈q⌉ := by
  unfold pyTrunc
  by_cases h : 0 ≤ q
  · rw [if_pos h, Rat.floor_def]
    exact Int.tdiv_eq_ediv (Rat.num_nonneg.mpr h) (Int.natCast_nonneg q.den)
  · rw [if_neg h]
    have hq : q ≤ 0 := le_of_lt (lt_of_not_ge h)
    have hneg : 0 ≤ -q := neg_nonneg.mpr hq
    have h1 : (⌈q⌉ : ℤ) = -⌊-q⌋ := by rw [Int.floor_neg]; ring
    rw [h1, Rat.floor_def, Rat.num_neg_eq_neg_num, Rat.den_neg_eq_den]
    have h2 : (-q.num).tdiv (q.den : ℤ) = (-q.num) / (q.den : ℤ) :=
      Int.tdiv_eq_ediv (by rw [← Rat.num_neg_eq_neg_num]; exact Rat.num_nonneg.mpr hneg)
        (Int.natCast_nonneg q.den)
    rw [← h2, Int.neg_tdiv, neg_neg]

/-- `pyTrunc` of an integer is that integer. -/
lemma pyTrunc_intCast (n : ℤ) : pyTrunc ((n : ℤ) : ℚ) = n := by
  simp [pyTrunc, Rat.num_intCast, Rat.den_intCast]

/-! ## Claim theorems -/

/-- The spec's example vertex for coordinate scaling: stored coordinates
`(10.5, 20.3, 3.2)`. -/
def c1_example_vertex : KuzuVertex :=
  { id := "vertex-3", ifc_type := "IfcSpace", ifc_guid := "1A2B3C", name := "Room 101",
    x := (10.5 : ℚ), y := (20.3 : ℚ), z := (3.2 : ℚ), building_id := "building-1" }

/-- A vertex whose `z` coordinate `0.0029296875 = 3/1024` is an exactly
representable IEEE-754 double whose product with 1000 (`2.9296875`) is
also exact, so the Python float computation agrees with the rational
model here. -/
def c1_cex_vertex : KuzuVertex :=
  { id := "v1", ifc_type := "IfcWall", ifc_guid := "G1", name := "W1",
    x := mkRat 0 1, y := mkRat 0 1, z := (0.0029296875 : ℚ), building_id := "" }

/-- C1 (counterexample): the exported `z` for stored coordinate
`0.0029296875` is `2` (the code truncates with `int(z * 1000)`), while
`round(z * 1000) = round(2.9296875) = 3` as the claim demands. -/
theorem c1_counterexample :
    (convert_vertex_to_graph_node c1_cex_vertex "f").z = 2
    ∧ pyRound (c1_cex_vertex.z * 1000) = 3 := by
  constructor
  · show pyTrunc ((0.0029296875 : ℚ) * 1000) = 2
    rw [show (0.0029296875 : ℚ) * 1000 = mkRat 375 128 by
      rw [Rat.mkRat_eq_div]; norm_num]
    decide
  · show pyRound ((0.0029296875 : ℚ) * 1000) = 3
    rw [show (0.0029296875 : ℚ) * 1000 = mkRat 375 128 by
      rw [Rat.mkRat_eq_div]; norm_num]
    decide

/-- C1 (amended): every exported coordinate field equals Python
`int(coordinate * 1000)` — truncation toward zero (floor for non-negative
values, ceiling for negative ones) of the exact product — and is of
integer type by construction (`GraphNode.x/y/z : ℤ`); in particular the
spec's example `(10.5, 20.3, 3.2)` yields `(10500, 20300, 3200)`. -/
theorem c1_amended_coordinate_scaling :
    (∀ (v : KuzuVertex) (fid : String),
        (convert_vertex_to_graph_node v fid).x = pyTrunc (v.x * 1000)
        ∧ (convert_vertex_to_graph_node v fid).y = pyTrunc (v.y * 1000)
        ∧ (convert_vertex_to_graph_node v fid).z = pyTrunc (v.z * 1000))
    ∧ (∀ q : ℚ, pyTrunc q = if 0 ≤ q then ⌊q⌋ else ⌈q⌉)
    ∧ ((convert_vertex_to_graph_node c1_example_vertex "file-123").x = 10500
        ∧ (convert_vertex_to_graph_node c1_example_vertex "file-123").y = 20300
        ∧ (convert_vertex_to_graph_node c1_example_vertex "file-123").z = 3200) := by
  refine ⟨fun v fid => ⟨rfl, rfl, rfl⟩, pyTrunc_spec, ?_, ?_, ?_⟩
  · show pyTrunc ((10.5 : ℚ) * 1000) = 10500
    rw [show (10.5 : ℚ) * 1000 = ((10500 : ℤ) : ℚ) by norm_num, pyTrunc_intCast]
  · show pyTrunc ((20.3 : ℚ) * 1000) = 20300
    rw [show (20.3 : ℚ) * 1000 = ((20300 : ℤ) : ℚ) by norm_num, pyTrunc_intCast]
  · show pyTrunc ((3.2 : ℚ) * 1000) = 3200
    rw [show (3.2 : ℚ) * 1000 = ((3200 : ℤ) : ℚ) by norm_num, pyTrunc_intCast]

/-- C5: token-type classification is a total function (it is a Lean
function into the five-constructor `TokenType`, so every string receives
exactly one of the five values), agrees with the spec's fixed-order
cascade over the lower-cased string, and classifies `"IfcBuildingStorey"`
as STOREY, not BUILDING. -/
theorem c5_token_type_classification :
    (∀ s : List Char, determine_token_type s = specTokenClassification (pyLower s))
    ∧ determine_token_type "IfcBuildingStorey".data = TokenType.STOREY
    ∧ determine_token_type "IfcBuildingStorey".data ≠ TokenType.BUILDING :=
  ⟨fun _ => rfl, by decide, by decide⟩

/-- `first_key_value` is `none` exactly when no alias key is present. -/
lemma first_key_value_eq_none_iff (keys : List String) (d : List (String × PyVal)) :
    first_key_value keys d = none ↔ ∀ k ∈ keys, pyGet d k = none := by
  induction keys with
  | nil => simp [first_key_value]
  | cons k ks ih =>
      cases h : pyGet d k with
      | some v => simp [first_key_value, h]
      | none => simp [first_key_value, h, ih]

/-- A vertex whose dictionary carries the alias key `"type"` with a null
value. -/
def c6_cex_vertex : TopologicVertex :=
  { dictionaries := [("type", PyVal.pnone)] }

/-- C6 (counterexample): for the dictionary `{"type": None}` the alias
key `"type"` is present, yet after extraction `ifc_type` is `None` — the
claimed equivalence fails. -/
theorem c6_counterexample :
    ¬ (((extract_ifc_metadata c6_cex_vertex).ifc_type = PyVal.pnone) ↔
        (∀ k ∈ type_keys, pyGet c6_cex_vertex.dictionaries k = none)) := by
  decide

/-- C6 (amended): for a freshly constructed vertex (derived fields
initially null), after extraction `ifc_type` is null iff no type-alias
key is present in `dictionaries` or the first present alias key's stored
value is itself null; `first_key_value` being `none` is exactly absence
of every alias key; and when two alias keys are both present the first in
the fixed list wins (`IFC_type` beats `type`). -/
theorem c6_amended_metadata_extraction :
    (∀ d : List (String × PyVal),
        ((extract_ifc_metadata { dictionaries := d }).ifc_type = PyVal.pnone ↔
          first_key_value type_keys d = none
          ∨ first_key_value type_keys d = some PyVal.pnone))
    ∧ (∀ d : List (String × PyVal),
        first_key_value type_keys d = none ↔ ∀ k ∈ type_keys, pyGet d k = none)
    ∧ (extract_ifc_metadata
        { dictionaries := [("IFC_type", PyVal.pstr "IfcWall"),
                           ("type", PyVal.pstr "IfcDoor")] }).ifc_type
        = PyVal.pstr "IfcWall" := by
  refine ⟨fun d => ?_, fun d => first_key_value_eq_none_iff type_keys d, by decide⟩
  cases h : first_key_value type_keys d with
  | none => simp [extract_ifc_metadata, h]
  | some v => cases v <;> simp [extract_ifc_metadata, h]

/-- Appending one occurrence to a counts dict raises the value total by
one. -/
lemma count_incr_sum (m : List (String × ℕ)) (k : String) :
    ((count_incr m k).map Prod.snd).sum = (m.map Prod.snd).sum + 1 := by
  induction m with
  | nil => simp [count_incr]
  | cons p rest ih =>
      by_cases h : p.1 = k
      · simp [count_incr, h]
        omega
      · simp [count_incr, h, ih]
        omega

/-- The statistics fold counts exactly the vertices with a truthy
`ifc_type`. -/
lemma stats_fold_sum (vs : List TopologicVertex) (m : List (String × ℕ)) :
    ((vs.foldl (fun m v =>
        if v.ifc_type.truthy then count_incr m v.ifc_type.strVal else m) m).map
        Prod.snd).sum
      = (m.map Prod.snd).sum + (vs.filter (fun v => v.ifc_type.truthy)).length := by
  induction vs generalizing m with
  | nil => simp
  | cons v rest ih =>
      rw [List.foldl_cons, List.filter_cons]
      by_cases ht : v.ifc_type.truthy
      · rw [if_pos ht, if_pos ht, ih (count_incr m v.ifc_type.strVal), count_incr_sum]
        simp
        omega
      · rw [if_neg ht, if_neg (by simpa using ht)]
        exact ih m

/-- A graph with one vertex whose `ifc_type` is the empty string:
non-null but falsy. -/
def c9_cex_graph : TopologicGraph :=
  { vertices := [{ ifc_type := PyVal.pstr "" }] }

/-- C9 (counterexample): with one vertex whose `ifc_type` is `""`
(non-null), `update_statistics` records no type count — the values of
`ifc_type_counts` sum to 0 while the number of vertices with a non-null
`ifc_type` is 1. -/
theorem c9_counterexample :
    ((update_statistics c9_cex_graph).ifc_type_counts.map Prod.snd).sum = 0
    ∧ (c9_cex_graph.vertices.filter
        (fun v => v.ifc_type ≠ PyVal.pnone)).length = 1 := by
  decide

/-- C9 (amended): after `update_statistics`, `vertex_count` and
`edge_count` equal the collection lengths, the values of
`ifc_type_counts` sum to the number of vertices with a truthy (non-null
and non-empty) `ifc_type` — Python `if vertex.ifc_type:` skips empty
strings — and a second call without mutating vertices or edges returns
identical statistics (idempotence). -/
theorem c9_amended_update_statistics :
    ∀ g : TopologicGraph,
      (update_statistics g).vertex_count = g.vertices.length
      ∧ (update_statistics g).edge_count = g.edges.length
      ∧ ((update_statistics g).ifc_type_counts.map Prod.snd).sum
          = (g.vertices.filter (fun v => v.ifc_type.truthy)).length
      ∧ update_statistics (update_statistics g) = update_statistics g := by
  intro g
  refine ⟨rfl, rfl, ?_, rfl⟩
  simpa using stats_fold_sum g.vertices []

/-- With an empty id→index map every queried row is dropped. -/
lemma edges_from_rows_nil_idxmap (rows : List EdgeRow) (counter : ℕ) :
    edges_from_rows [] rows counter = [] := by
  induction rows generalizing counter with
  | nil => rfl
  | cons r rest ih => simp [edges_from_rows, pyDictGet, ih]

/-- `_get_edges_for_file` with an empty id→index map yields no edges,
whether or not the query succeeds. -/
lemma get_edges_for_file_nil (rows : Except String (List EdgeRow)) :
    get_edges_for_file rows [] = [] := by
  cases rows with
  | error e => rfl
  | ok rs => simp [get_edges_for_file, edges_from_rows_nil_idxmap]

/-- The exported node built from a stored `IfcWall` row. -/
def c2_node : GraphNode :=
  convert_vertex_to_graph_node
    { id := "vertex-1", ifc_type := "IfcWall", ifc_guid := "2O2Fr", name := "Wall-001",
      x := mkRat 0 1, y := mkRat 0 1, z := mkRat 0 1, building_id := "building-1" }
    "file-123"

/-- An edge in the exporter's output schema (`fromIndex`/`toIndex`
present, `fromKuzuId`/`toKuzuId` keys absent) whose indices `5`/`7`
reference no exported node. -/
def c2_dangling_edge : ExportEdge :=
  { fromTokenId := 0, toTokenId := 0, fromIndex := some 5, toIndex := some 7,
    fromKuzuId := none, toKuzuId := none, connectionType := "topological",
    edgeProperties := "\x7b\x7d", kuzuEdgeId := string_to_bytes32 "edge_0",
    bidirectional := true }

/-- C2 (code bug): `validate_export_data` checks edge endpoints only
through the `fromKuzuId`/`toKuzuId` keys, but `_get_edges_for_file` never
emits those keys (first conjunct) — the repository's own tests
(`test_get_edges_basic`, `test_validate_orphaned_edges`) expect exporter
edges to carry them.  Consequently validating one exported node together
with an exporter-schema edge whose indices reference non-exported
elements reports no error at all (second conjunct), against the claim. -/
theorem c2_edge_validation_gap :
    (∀ (idxmap : List (String × ℕ)) (rows : List EdgeRow) (counter : ℕ),
        (edges_from_rows idxmap rows counter).all
          (fun e => e.fromKuzuId == none && e.toKuzuId == none) = true)
    ∧ validate_export_data [c2_node] [c2_dangling_edge] = (true, []) := by
  refine ⟨fun idxmap rows => ?_, by decide⟩
  induction rows with
  | nil => intro counter; rfl
  | cons r rest ih =>
      intro counter
      cases h1 : pyDictGet idxmap r.from_id with
      | none => simpa [edges_from_rows, h1] using ih counter
      | some fi =>
          cases h2 : pyDictGet idxmap r.to_id with
          | none => simpa [edges_from_rows, h1, h2] using ih counter
          | some ti => simpa [edges_from_rows, h1, h2] using ih (counter + 1)

/-- C7 (counterexample): a failing store query (`.error`) produces
exactly the same `([], [])` as a store that holds no elements — the
collaborator's message is swallowed, so the caller cannot distinguish a
fatal store failure from the valid empty state. -/
theorem c7_counterexample :
    export_building_for_minting (.error "Kuzu connection refused") (.ok [])
      "file-1" [] = ([], [])
    ∧ export_building_for_minting (.ok []) (.ok []) "file-1" [] = ([], []) :=
  ⟨rfl, rfl⟩

/-- C7 (amended): `export_building_for_minting` returns two empty lists
exactly when the store query fails (the method's `try/except` catches the
collaborator failure, logs it, and returns the same value as the valid
empty state — nothing is reported to the caller) or when the post-filter
element list is empty (which covers both an empty store result and a type
filter that removes every element). -/
theorem c7_amended_export_empty :
    ∀ (fid : String) (its : List String) (rows : Except String (List EdgeRow)),
      (∀ e : String, export_building_for_minting (.error e) rows fid its = ([], []))
      ∧ ∀ vs : List KuzuVertex,
          (export_building_for_minting (.ok vs) rows fid its = ([], [])
            ↔ filtered_vertices its vs = []) := by
  intro fid its rows
  refine ⟨fun e => rfl, fun vs => ?_⟩
  by_cases hv : vs = []
  · subst hv
    simp [export_building_for_minting, filtered_vertices]
  · simp only [export_building_for_minting, if_neg hv]
    constructor
    · intro h
      have hn := congrArg Prod.fst h
      simpa using hn
    · intro h
      rw [h]
      simp [get_edges_for_file_nil]

/-- An engine that yields a graph handle only for the hard-coded default
type set and a falsy result for any other request. -/
def c4_engine : TopoEngine :=
  { byIFCPath := fun inc _ =>
      if inc = some default_ifc_types then .ok (some ⟨7⟩) else .ok none
    extractData := fun _ => .ok ([{ id := "v" }], []) }

/-- A context whose caller supplied the filter `["IfcWall"]`. -/
def c4_ctx : IFCContext :=
  { file_path := "building.ifc", include_types := ["IfcWall"] }

/-- C4 (counterexample): with a caller filter `["IfcWall"]` and an engine
that succeeds exactly on the default type set, the third strategy fails
(it requested the caller's filter), while the spec's claimed behaviour —
always substituting the hard-coded defaults — would have succeeded. -/
theorem c4_counterexample :
    c4_ctx.include_types = ["IfcWall"]
    ∧ (process_traditional_with_types c4_engine c4_ctx).2
        = .error "Traditional processing with types failed"
    ∧ (spec_traditional_with_defaults c4_engine c4_ctx).2.isOk = true :=
  ⟨rfl, rfl, rfl⟩

/-- C4 (amended): `traditional_with_types` substitutes the hard-coded
default type set (with dictionary transfer enabled) only when the caller
supplied no filter; a non-empty caller filter is used as-is, not
discarded. -/
theorem c4_amended_traditional_with_types :
    ∀ (E : TopoEngine) (ctx : IFCContext),
      (ctx.include_types ≠ [] →
        process_traditional_with_types E ctx
          = traditional_types_request E ctx ctx.include_types)
      ∧ (ctx.include_types = [] →
        process_traditional_with_types E ctx
          = traditional_types_request E ctx default_ifc_types) := by
  intro E ctx
  constructor
  · intro h; simp [process_traditional_with_types, h]
  · intro h; simp [process_traditional_with_types, h]

/-- Witness for the amended C4 theorem at a concrete engine and a
concrete non-empty caller filter. -/
theorem c4_amended_witness :
    c4_ctx.include_types ≠ []
    ∧ process_traditional_with_types c4_engine c4_ctx
        = traditional_types_request c4_engine c4_ctx ["IfcWall"] :=
  ⟨by decide, (c4_amended_traditional_with_types c4_engine c4_ctx).1 (by decide)⟩

/-- An engine whose every `Graph.ByIFCPath` call raises. -/
def fail_engine : TopoEngine :=
  { byIFCPath := fun _ _ => .error "disk unreadable"
    extractData := fun _ => .error "unreachable" }

/-- C3 (counterexample): when all four strategies fail, the per-step
messages are accumulated only on the internal processing context; the
result handed to the caller carries the fixed detail
`"All processing methods failed"`, which does not contain the failing
strategies' message. -/
theorem c3_counterexample :
    (process_ifc_file fail_engine true (mkRat 0 1) "b.ifc" {}).2.1.success = false
    ∧ (process_ifc_file fail_engine true (mkRat 0 1) "b.ifc" {}).2.1.error_details
        = some "All processing methods failed"
    ∧ (process_with_fallbacks fail_engine (mk_context "b.ifc" {})).1.error_messages
        = ["direct_with_dictionaries: Graph.ByIFCPath failed with exception: disk unreadable",
           "direct_without_dictionaries: disk unreadable",
           "traditional_with_types: disk unreadable",
           "traditional_fallback: disk unreadable"]
    ∧ containsSub "disk unreadable".data
        "All processing methods failed".data = false := by
  refine ⟨rfl, rfl, ?_, by decide⟩
  decide

/-- C3 (amended): when every fallback strategy fails, `process_ifc_file`
returns a failure result whose error detail is the fixed message
`"All processing methods failed"` — the message of the exception raised
when the chain is exhausted — not the concatenation of the per-step
error messages (those stay on the internal context, see the
counterexample). -/
theorem c3_amended_error_detail :
    ∀ (E : TopoEngine) (fsz : ℚ) (fp : String) (cfg : ProcessingConfig),
      (process_with_fallbacks E (mk_context fp cfg)).2 = none →
      (process_ifc_file E true fsz fp cfg).2.1 =
        { success := false
          message := "Failed to process IFC file: All processing methods failed"
          stats := none
          error_details := some "All processing methods failed" } := by
  intro E fsz fp cfg h
  cases hq : process_with_fallbacks E (mk_context fp cfg) with
  | mk c' og =>
      rw [hq] at h
      simp only at h
      subst h
      simp [process_ifc_file, hq]

/-- Witness for the amended C3 theorem: a concrete engine on which every
strategy raises. -/
theorem c3_amended_witness :
    (process_with_fallbacks fail_engine (mk_context "b.ifc" {})).2 = none
    ∧ (process_ifc_file fail_engine true (mkRat 0 1) "b.ifc" {}).2.1 =
        { success := false
          message := "Failed to process IFC file: All processing methods failed"
          stats := none
          error_details := some "All processing methods failed" } :=
  ⟨rfl, c3_amended_error_detail fail_engine (mkRat 0 1) "b.ifc" {} rfl⟩

/-- C10: `process_ifc_file` is total (the enclosing `try/except` is
modelled by the total Lean function — no exception reaches the caller),
and whenever the returned result has `success = false` the returned
graph is the fresh empty `TopologicGraph()` (no vertices, no edges) and
the engine-native handle is `None`. -/
theorem c10_failed_run_returns_empty :
    ∀ (E : TopoEngine) (fv : Bool) (fsz : ℚ) (fp : String) (cfg : ProcessingConfig),
      (process_ifc_file E fv fsz fp cfg).2.1.success = false →
        (process_ifc_file E fv fsz fp cfg).1.vertices = []
        ∧ (process_ifc_file E fv fsz fp cfg).1.edges = []
        ∧ (process_ifc_file E fv fsz fp cfg).2.2 = none := by
  intro E fv fsz fp cfg h
  cases fv with
  | false => exact ⟨rfl, rfl, rfl⟩
  | true =>
      cases hq : process_with_fallbacks E (mk_context fp cfg) with
      | mk c' og =>
          cases og with
          | some g => simp [process_ifc_file, hq] at h
          | none => refine ⟨?_, ?_, ?_⟩ <;> simp [process_ifc_file, hq]

/-- Witness for C10 at a concrete failing run. -/
theorem c10_witness :
    (process_ifc_file fail_engine true (mkRat 0 1) "b.ifc" {}).2.1.success = false
    ∧ ((process_ifc_file fail_engine true (mkRat 0 1) "b.ifc" {}).1.vertices = []
        ∧ (process_ifc_file fail_engine true (mkRat 0 1) "b.ifc" {}).1.edges = []
        ∧ (process_ifc_file fail_engine true (mkRat 0 1) "b.ifc" {}).2.2 = none) :=
  ⟨rfl, c10_failed_run_returns_empty fail_engine true (mkRat 0 1) "b.ifc" {} rfl⟩

/-- A literal is a prefix of itself followed by anything. -/
lemma isPrefixB_append (lit r : List Char) : isPrefixB lit (lit ++ r) = true := by
  induction lit with
  | nil => rfl
  | cons c cs ih => simp [isPrefixB, ih]

/-- Stripping a literal off itself followed by a remainder yields the
remainder. -/
lemma stripLiteral_append (lit r : List Char) : stripLiteral lit (lit ++ r) = some r := by
  simp [stripLiteral, isPrefixB_append, List.drop_left]

/-- `takeWhile` stops exactly at the first failing character. -/
lemma takeWhile_append_break (p : Char → Bool) (k : List Char) (c : Char)
    (r : List Char) (hk : ∀ a ∈ k, p a = true) (hc : p c = false) :
    (k ++ c :: r).takeWhile p = k := by
  rw [List.takeWhile_append_of_pos hk, List.takeWhile_cons, hc]
  simp

/-- The token of the C8 counterexample: a non-empty `kuzu_element_id`
containing a slash. -/
def c8_cex_token : IFCComponentToken :=
  { kuzu_element_id := "a/b".data, topologic_vertex_id := "t1".data,
    ifc_guid := "g1".data }

/-- C8 (counterexample): all three identifier components are non-empty,
yet the generated URI `kuzu://a/b/topologic/t1/ifc/g1` does not match the
parsing regex (the slash inside `kuzu_element_id` misaligns the
`[^/]+/topologic/` structure), so `parse_token_uri` raises instead of
recovering the components. -/
theorem c8_counterexample :
    c8_cex_token.kuzu_element_id ≠ []
    ∧ c8_cex_token.topologic_vertex_id ≠ []
    ∧ c8_cex_token.ifc_guid ≠ []
    ∧ parse_token_uri (generate_token_uri c8_cex_token) = none := by
  decide

/-- C8 (amended): the URI round-trip
`parse_token_uri (generate_token_uri t) = (kuzu_id, topologic_id,
ifc_guid)` holds for every token whose three components are non-empty,
provided additionally that `kuzu_element_id` and `topologic_vertex_id`
contain no `'/'` (a slash misaligns the regex) and `ifc_guid` contains no
newline (the regex's `.` stops there). -/
theorem c8_amended_round_trip :
    ∀ t : IFCComponentToken,
      t.kuzu_element_id ≠ [] → t.topologic_vertex_id ≠ [] → t.ifc_guid ≠ [] →
      '/' ∉ t.kuzu_element_id → '/' ∉ t.topologic_vertex_id →
      '\n' ∉ t.ifc_guid →
      parse_token_uri (generate_token_uri t)
        = some (t.kuzu_element_id, t.topologic_vertex_id, t.ifc_guid) := by
  intro t hk htv hg hks htvs hgn
  obtain ⟨tv, k, g⟩ := t
  simp only at hk htv hg hks htvs hgn
  show parse_token_uri
      ("kuzu://".data ++ k ++ "/topologic/".data ++ tv ++ "/ifc/".data ++ g)
    = some (k, tv, g)
  have e1 : ∀ X : List Char, ('/' : Char) :: ("topologic/".data ++ X)
      = "/topologic/".data ++ X := fun X => rfl
  have e2 : ∀ X : List Char, ('/' : Char) :: ("ifc/".data ++ X)
      = "/ifc/".data ++ X := fun X => rfl
  have hsplit :
      "kuzu://".data ++ k ++ "/topologic/".data ++ tv ++ "/ifc/".data ++ g
        = "kuzu://".data ++
            (k ++ '/' :: ("topologic/".data ++ (tv ++ '/' :: ("ifc/".data ++ g)))) := by
    rw [e1, e2]
    simp [List.append_assoc]
  rw [hsplit]
  have hkall : ∀ a ∈ k, (fun c => decide (c ≠ '/')) a = true := by
    intro a ha
    simp only [decide_eq_true_eq]
    intro hcontr
    exact hks (hcontr ▸ ha)
  have htvall : ∀ a ∈ tv, (fun c => decide (c ≠ '/')) a = true := by
    intro a ha
    simp only [decide_eq_true_eq]
    intro hcontr
    exact htvs (hcontr ▸ ha)
  have hgall : ∀ a ∈ g, (fun c => decide (c ≠ '\n')) a = true := by
    intro a ha
    simp only [decide_eq_true_eq]
    intro hcontr
    exact hgn (hcontr ▸ ha)
  rw [parse_token_uri.eq_def, stripLiteral_append]
  simp only
  rw [takeWhile_append_break _ k '/' _ hkall (by decide)]
  rw [if_neg hk, List.drop_left, e1, stripLiteral_append]
  simp only
  rw [takeWhile_append_break _ tv '/' _ htvall (by decide)]
  rw [if_neg htv, List.drop_left, e2, stripLiteral_append]
  simp only
  rw [List.takeWhile_eq_self_iff.mpr hgall, if_neg hg]

/-- Witness for the amended C8 round-trip at the repository docstring's
example identifiers. -/
theorem c8_amended_witness :
    parse_token_uri (generate_token_uri
      { kuzu_element_id := "elem123".data, topologic_vertex_id := "vertex456".data,
        ifc_guid := "guid789".data })
      = some ("elem123".data, "vertex456".data, "guid789".data) :=
  c8_amended_round_trip
    { kuzu_element_id := "elem123".data, topologic_vertex_id := "vertex456".data,
      ifc_guid := "guid789".data }
    (by decide) (by decide) (by decide) (by decide) (by decide) (by decide)

end CryptoTwin
